import Mathlib

/-!
Verification of `airflow/providers/amazon/aws/transfers/redshift_to_s3.py`
(`RedshiftToS3Operator`): a shallow embedding of the operator's construction
(`__init__`), query building (`_build_unload_query`) and execution dispatch
(`execute`), with theorems checking the natural-language specification.

Python strings are modelled as `List Char`; Python truthiness of an optional
string is "present and non-empty"; `dict` arguments are association lists.
The regex substitution `re.sub(r"''(.+)''", r"'\1'", s)` is modelled
character-exactly: leftmost match, greedy `.+` (which does not match a
newline), one pass, non-recursive.
-/

/-- Python strings, modelled as lists of characters. -/
abbrev Str := List Char

/-- Embed a Lean string literal as a character list. -/
def str (s : String) : Str := s.data

/-- The whitespace characters stripped by Python's `str.strip()`
(ASCII fragment, which covers all inputs considered here). -/
def isPyWs (c : Char) : Bool :=
  c == ' ' || c == '\t' || c == '\n' || c == '\r' || c == '\x0b' || c == '\x0c'

/-- Strip characters satisfying `p` from both ends of a list. -/
def stripBy (p : Char → Bool) (s : Str) : Str :=
  (((s.dropWhile p).reverse).dropWhile p).reverse

/-- Model of Python's `str.strip()`. -/
def stripPy (s : Str) : Str := stripBy isPyWs s

/-- Greedy-backtracking search for the body of `(.+)''` inside
`re.sub(r"''(.+)''", ...)`: given the text that follows an opening `''`,
return the longest (possibly empty) newline-free `content` such that the
text is `content ++ "''" ++ rest`, together with `rest`. `none` when no such
split exists.  Preferring to consume the current character first is exactly
the greedy `.+` with backtracking. -/
def extSplit : Str → Option (Str × Str)
  | [] => none
  | c :: t =>
    if c = '\n' then none
    else
      match extSplit t with
      | some (content, rest) => some (c :: content, rest)
      | none =>
        if c = '\'' then
          match t with
          | q :: u => if q = '\'' then some ([], u) else none
          | [] => none
        else none

/-- Try to match the regex `''(.+)''` at the current position: two quotes,
a non-empty greedy newline-free group, two quotes.  Returns the group and
the remaining text after the match. -/
def matchQQ : Str → Option (Str × Str)
  | q1 :: q2 :: t =>
    if q1 = '\'' ∧ q2 = '\'' then
      match extSplit t with
      | some (content, rest) => if content.isEmpty then none else some (content, rest)
      | none => none
    else none
  | _ => none

/-- One left-to-right pass of `re.sub(r"''(.+)''", r"'\1'", s)`: at each
position try the match; on success emit `'content'` and continue after the
match (no rescanning of the replacement), otherwise keep one character and
move on.  The fuel argument only bounds recursion and always suffices. -/
def unescapeAux : Nat → Str → Str
  | _, [] => []
  | 0, s => s
  | fuel + 1, c :: t =>
    match matchQQ (c :: t) with
    | some (content, rest) => '\'' :: (content ++ ('\'' :: unescapeAux fuel rest))
    | none => c :: unescapeAux fuel t

/-- Model of `select_query = re.sub(r"''(.+)''", r"'\1'", select_query)`. -/
def unescape (s : Str) : Str := unescapeAux s.length s

/-- The construction-time error kinds of the operator: `ValueError` for the
missing schema/table/select_query validation and `AirflowException` for the
forbidden Data-API kwargs.  The spec groups both under "ConfigurationError". -/
inductive ConfigError where
  | valueError (msg : Str)
  | airflowException (msg : Str)
deriving DecidableEq, Repr

/-- The keyword arguments of `RedshiftToS3Operator.__init__`.  Optional
strings model `str | None` parameters; `none`-able lists and mappings model
the `unload_options`/`redshift_data_api_kwargs` defaults. -/
structure Config where
  s3_bucket : Str
  s3_key : Str
  schema : Option Str := none
  table : Option Str := none
  select_query : Option Str := none
  redshift_conn_id : Str := str "redshift_default"
  aws_conn_id : Option Str := some (str "aws_default")
  verify : Option Str := none
  unload_options : Option (List Str) := none
  autocommit : Bool := false
  include_header : Bool := false
  parameters : Option (List Str) := none
  table_as_file_name : Bool := true
  redshift_data_api_kwargs : Option (List (Str × Str)) := none
deriving DecidableEq, Repr

/-- The operator state after a successful `__init__`. -/
structure Operator where
  s3_bucket : Str
  s3_key : Str
  schema : Option Str
  table : Option Str
  select_query : Str
  redshift_conn_id : Str
  aws_conn_id : Option Str
  verify : Option Str
  unload_options : List Str
  autocommit : Bool
  include_header : Bool
  parameters : Option (List Str)
  table_as_file_name : Bool
  redshift_data_api_kwargs : List (Str × Str)
deriving DecidableEq, Repr

/-- Python truthiness of an optional string: present and non-empty. -/
def truthyOpt : Option Str → Bool
  | none => false
  | some s => !s.isEmpty

/-- Membership of a key in a Python dict modelled as an association list. -/
def hasKey (m : List (Str × Str)) (k : Str) : Bool :=
  m.any fun kv => kv.1 == k

/-- The `ValueError` message of `__init__` when neither `select_query` nor
`schema` and `table` are supplied. -/
def selectQueryErrMsg : Str :=
  str "Please provide both `schema` and `table` params or `select_query` to fetch the data."

/-- The `AirflowException` message for a forbidden Data-API kwarg. -/
def dataApiKwargErrMsg (arg : Str) : Str :=
  str "Cannot include param '" ++ (arg ++ str "' in Redshift Data API kwargs")

/-- Assemble the operator record from the validated pieces. -/
def mkOperator (cfg : Config) (s3_key select_query : Str)
    (unload_options : List Str) (data_kwargs : List (Str × Str)) : Operator :=
  { s3_bucket := cfg.s3_bucket
    s3_key := s3_key
    schema := cfg.schema
    table := cfg.table
    select_query := select_query
    redshift_conn_id := cfg.redshift_conn_id
    aws_conn_id := cfg.aws_conn_id
    verify := cfg.verify
    unload_options := unload_options
    autocommit := cfg.autocommit
    include_header := cfg.include_header
    parameters := cfg.parameters
    table_as_file_name := cfg.table_as_file_name
    redshift_data_api_kwargs := data_kwargs }

/-- `RedshiftToS3Operator.__init__`, line by line:
`self.s3_key = f"{s3_key}/{table}_" if (table and table_as_file_name) else s3_key`;
`self.unload_options = unload_options or []`;
`self.redshift_data_api_kwargs = redshift_data_api_kwargs or {}`;
then the `select_query`/`schema`+`table` validation, the conditional
`HEADER` append, and the forbidden-kwargs check, in source order. -/
def init (cfg : Config) : Except ConfigError Operator :=
  let s3_key :=
    if truthyOpt cfg.table && cfg.table_as_file_name then
      cfg.s3_key ++ (str "/" ++ (cfg.table.getD [] ++ str "_"))
    else cfg.s3_key
  let unload_options0 := cfg.unload_options.getD []
  let data_kwargs := cfg.redshift_data_api_kwargs.getD []
  let sq : Option Str :=
    if truthyOpt cfg.select_query then cfg.select_query
    else if truthyOpt cfg.schema && truthyOpt cfg.table then
      some (str "SELECT * FROM " ++ (cfg.schema.getD [] ++ (str "." ++ cfg.table.getD [])))
    else none
  match sq with
  | none => Except.error (ConfigError.valueError selectQueryErrMsg)
  | some select_query =>
    let unload_options :=
      if cfg.include_header
          && !(unload_options0.any fun uo => stripPy (uo.map Char.toUpper) == str "HEADER") then
        unload_options0 ++ [str "HEADER"]
      else unload_options0
    if data_kwargs.isEmpty then
      Except.ok (mkOperator cfg s3_key select_query unload_options data_kwargs)
    else if hasKey data_kwargs (str "sql") then
      Except.error (ConfigError.airflowException (dataApiKwargErrMsg (str "sql")))
    else if hasKey data_kwargs (str "parameters") then
      Except.error (ConfigError.airflowException (dataApiKwargErrMsg (str "parameters")))
    else
      Except.ok (mkOperator cfg s3_key select_query unload_options data_kwargs)

/-- `RedshiftToS3Operator._build_unload_query`: unescape the select text and
interpolate the template (20-space indents inside the triple-quoted f-string,
8 spaces before the closing quotes), grouped right-to-left. -/
def buildUnloadQuery (s3_bucket credentials_block select_query s3_key unload_options : Str) : Str :=
  str "\n                    UNLOAD ($$" ++ (unescape select_query ++
    (str "$$)\n                    TO 's3://" ++ (s3_bucket ++
      (str "/" ++ (s3_key ++
        (str "'\n                    credentials\n                    '" ++ (credentials_block ++
          (str "'\n                    " ++ (unload_options ++ str ";\n        ")))))))))

/-- The effective destination key `__init__` stores. -/
def effectiveKey (cfg : Config) : Str :=
  if truthyOpt cfg.table && cfg.table_as_file_name then
    cfg.s3_key ++ (str "/" ++ (cfg.table.getD [] ++ str "_"))
  else cfg.s3_key

/-- The select text `__init__` stores when the source is resolvable. -/
def effectiveSelect (cfg : Config) : Str :=
  if truthyOpt cfg.select_query then cfg.select_query.getD []
  else str "SELECT * FROM " ++ (cfg.schema.getD [] ++ (str "." ++ cfg.table.getD []))

/-- The option list `__init__` stores. -/
def effectiveOptions (cfg : Config) : List Str :=
  if cfg.include_header
      && !((cfg.unload_options.getD []).any fun uo => stripPy (uo.map Char.toUpper) == str "HEADER") then
    cfg.unload_options.getD [] ++ [str "HEADER"]
  else cfg.unload_options.getD []

/-- The destination storage connection as seen by `execute`:
`extra_dejson` is the mapping of its extra configuration. -/
structure Connection where
  extra : List (Str × Str)

/-- Session credentials returned by `S3Hook.get_credentials`. -/
structure Credentials where
  access_key : Str
  secret_key : Str
  token : Option Str

/-- The external collaborators of `execute`: the resolved destination
connection (`S3Hook.get_connection`), the session credentials the provider
would return (`S3Hook.get_credentials`) and the collaborator-owned
`build_credentials_block` rendering. -/
structure ExecEnv where
  conn : Connection
  credentials : Credentials
  renderCredentials : Credentials → Str

/-- The single delegated call made by `execute`: either
`RedshiftDataHook.execute_query(sql=..., parameters=..., **kwargs)` or
`RedshiftSQLHook.run(sql, autocommit, parameters=...)`. -/
inductive Submission where
  | dataApi (sql : Str) (parameters : Option (List Str)) (kwargs : List (Str × Str))
  | sqlRun (sql : Str) (autocommit : Bool) (parameters : Option (List Str))
deriving DecidableEq

/-- The observable outcome of one `execute` call: the submission, the
credentials clause it embedded, and whether the key-fetch path
(`S3Hook.get_credentials`) was invoked. -/
structure ExecResult where
  submission : Submission
  credentials_block : Str
  getCredentialsInvoked : Bool
deriving DecidableEq

/-- Lookup in `extra_dejson`, i.e. `conn.extra_dejson.get(key, False)`. -/
def lookupMap (m : List (Str × Str)) (k : Str) : Option Str :=
  match m with
  | [] => none
  | kv :: rest => if kv.1 == k then some kv.2 else lookupMap rest k

/-- `RedshiftToS3Operator.execute`: resolve the destination connection when
`aws_conn_id` is set; use `aws_iam_role=<arn>` when the extra configuration
carries a truthy `role_arn`, otherwise fetch and render session credentials;
join the unload options with newline + three tabs; build the UNLOAD
statement; submit it to the Data-API backend when
`redshift_data_api_kwargs` is non-empty, else to the SQL backend. -/
def execute (op : Operator) (env : ExecEnv) : ExecResult :=
  let conn : Option Connection :=
    if truthyOpt op.aws_conn_id then some env.conn else none
  let cred : Str × Bool :=
    match conn with
    | some c =>
      match lookupMap c.extra (str "role_arn") with
      | some v =>
        if !v.isEmpty then (str "aws_iam_role=" ++ v, false)
        else (env.renderCredentials env.credentials, true)
      | none => (env.renderCredentials env.credentials, true)
    | none => (env.renderCredentials env.credentials, true)
  let unload_options := List.intercalate (str "\n\t\t\t") op.unload_options
  let unload_query :=
    buildUnloadQuery op.s3_bucket cred.1 op.select_query op.s3_key unload_options
  let submission :=
    if op.redshift_data_api_kwargs.isEmpty then
      Submission.sqlRun unload_query op.autocommit op.parameters
    else
      Submission.dataApi unload_query op.parameters op.redshift_data_api_kwargs
  { submission := submission
    credentials_block := cred.1
    getCredentialsInvoked := cred.2 }

/-- The statement text a submission carries to its backend. -/
def submittedSql : Submission → Str
  | Submission.dataApi s _ _ => s
  | Submission.sqlRun s _ _ => s

/-- Bool-valued contiguous-substring test, used to state whether an error
message names a key. -/
def strStarts : Str → Str → Bool
  | [], _ => true
  | _ :: _, [] => false
  | p :: ps, c :: cs => p == c && strStarts ps cs

/-- `strHasSub pat s` holds when `pat` occurs contiguously inside `s`. -/
def strHasSub (pat : Str) : Str → Bool
  | [] => pat.isEmpty
  | c :: t => strStarts pat (c :: t) || strHasSub pat t

/-- A minimal valid configuration used by the concrete examples below. -/
def baseConfig : Config :=
  { s3_bucket := str "bucket"
    s3_key := str "key"
    select_query := some (str "SELECT 1") }

/-- A configuration supplying both a select query and a schema/table pair. -/
def cfgBothSources : Config :=
  { baseConfig with
    select_query := some (str "SELECT col FROM other")
    schema := some (str "public")
    table := some (str "orders") }

/-- `include_header=True` with the `HEADER` flag already present twice. -/
def cfgDupHeader : Config :=
  { baseConfig with
    include_header := true
    unload_options := some [str "HEADER", str "HEADER"] }

/-- `include_header=True` with a lower-case `header` flag already present. -/
def cfgHeaderLower : Config :=
  { baseConfig with
    include_header := true
    unload_options := some [str "header"] }

/-- The operator `cfgHeaderLower` constructs. -/
def opHeaderLower : Operator :=
  mkOperator cfgHeaderLower (str "key") (str "SELECT 1") [str "header"] []

/-- A configuration with no select query, schema or table. -/
def cfgNoSource : Config :=
  { baseConfig with select_query := none }

/-- `table_as_file_name=True`, `table="orders"`, `s3_key="exports"`. -/
def cfgOrders : Config :=
  { baseConfig with
    select_query := none
    schema := some (str "public")
    table := some (str "orders")
    s3_key := str "exports" }

/-- The operator `cfgOrders` constructs. -/
def opOrders : Operator :=
  mkOperator cfgOrders (str "exports/orders_") (str "SELECT * FROM public.orders") [] []

/-- Forbidden Data-API kwarg `sql` together with a missing source: the
schema/table validation fires first. -/
def cfgKwargsNoSource : Config :=
  { baseConfig with
    select_query := none
    redshift_data_api_kwargs := some [(str "sql", str "SELECT 2")] }

/-- Forbidden Data-API kwarg `sql` on an otherwise valid configuration. -/
def cfgKwargsSql : Config :=
  { baseConfig with
    redshift_data_api_kwargs := some [(str "sql", str "SELECT 2")] }

/-- An empty-string select query with no schema or table. -/
def cfgEmptySelectNoTable : Config :=
  { baseConfig with select_query := some [] }

/-- An empty-string select query together with schema and table. -/
def cfgEmptySelectWithTable : Config :=
  { baseConfig with
    select_query := some []
    schema := some (str "sch")
    table := some (str "tbl") }

/-- The operator `cfgEmptySelectWithTable` constructs. -/
def opEmptySelect : Operator :=
  mkOperator cfgEmptySelectWithTable (str "key/tbl_") (str "SELECT * FROM sch.tbl") [] []

/-- An operator used for the execution examples. -/
def opRole : Operator :=
  mkOperator baseConfig (str "key") (str "SELECT 1") [] []

/-- An execution environment whose destination connection carries
`role_arn="arn:aws:iam::123:role/x"` in its extra configuration. -/
def envRole : ExecEnv :=
  { conn := { extra := [(str "role_arn", str "arn:aws:iam::123:role/x")] }
    credentials := { access_key := str "AK", secret_key := str "SK", token := none }
    renderCredentials := fun c => str "aws_access_key_id=" ++ (c.access_key ++
      (str ";aws_secret_access_key=" ++ c.secret_key)) }

theorem stripBy_sandwich (p : Char → Bool) (pre mid post : Str) (a b : Char)
    (hpre : ∀ c ∈ pre, p c = true) (hpost : ∀ c ∈ post, p c = true)
    (ha : p a = false) (hb : p b = false) :
    stripBy p (pre ++ (a :: (mid ++ (b :: post)))) = a :: (mid ++ [b]) := by
  unfold stripBy
  rw [List.dropWhile_append_of_pos hpre,
    List.dropWhile_cons_of_neg (by simp [ha])]
  simp only [List.reverse_cons, List.reverse_append, List.append_assoc]
  rw [List.dropWhile_append_of_pos (by simpa using hpost)]
  rw [List.singleton_append, List.dropWhile_cons_of_neg (by simp [hb])]
  simp

theorem buildUnloadQuery_decomp (b cb sq k uo : Str) :
    buildUnloadQuery b cb sq k uo =
      str "\n                    " ++ ('U' :: (str "NLOAD ($$" ++ (unescape sq ++
        (str "$$)\n                    TO 's3://" ++ (b ++ (str "/" ++ (k ++
          (str "'\n                    credentials\n                    '" ++ (cb ++
            (str "'\n                    " ++ (uo ++ (';' :: str "\n        ")))))))))))) := rfl

theorem submittedSql_execute (op : Operator) (env : ExecEnv) :
    submittedSql (execute op env).submission =
      buildUnloadQuery op.s3_bucket (execute op env).credentials_block op.select_query op.s3_key
        (List.intercalate (str "\n\t\t\t") op.unload_options) := by
  cases h : op.redshift_data_api_kwargs.isEmpty <;> simp [execute, submittedSql, h]


theorem init_characterization (cfg : Config) :
    init cfg =
      if (truthyOpt cfg.select_query || (truthyOpt cfg.schema && truthyOpt cfg.table)) = false then
        Except.error (ConfigError.valueError selectQueryErrMsg)
      else if hasKey (cfg.redshift_data_api_kwargs.getD []) (str "sql") then
        Except.error (ConfigError.airflowException (dataApiKwargErrMsg (str "sql")))
      else if hasKey (cfg.redshift_data_api_kwargs.getD []) (str "parameters") then
        Except.error (ConfigError.airflowException (dataApiKwargErrMsg (str "parameters")))
      else
        Except.ok (mkOperator cfg (effectiveKey cfg) (effectiveSelect cfg)
          (effectiveOptions cfg) (cfg.redshift_data_api_kwargs.getD [])) := by
  unfold init effectiveKey effectiveSelect effectiveOptions
  by_cases h1 : truthyOpt cfg.select_query = true
  · cases hsel : cfg.select_query with
    | none => simp [hsel, truthyOpt] at h1
    | some s =>
      rw [hsel] at h1
      cases hk : cfg.redshift_data_api_kwargs.getD [] with
      | nil => simp [h1, hk, hasKey]
      | cons kv rest =>
        by_cases h4 : hasKey (kv :: rest) (str "sql") = true
        · simp [h1, hk, h4]
        · by_cases h5 : hasKey (kv :: rest) (str "parameters") = true <;>
            simp [h1, hk, h4, h5]
  · have h1f : truthyOpt cfg.select_query = false := by
      cases h : truthyOpt cfg.select_query
      · rfl
      · exact absurd h h1
    by_cases h2 : (truthyOpt cfg.schema && truthyOpt cfg.table) = true
    · cases hk : cfg.redshift_data_api_kwargs.getD [] with
      | nil => simp [h1f, h2, hk, hasKey]
      | cons kv rest =>
        by_cases h4 : hasKey (kv :: rest) (str "sql") = true
        · simp [h1f, h2, hk, h4]
        · by_cases h5 : hasKey (kv :: rest) (str "parameters") = true <;>
            simp [h1f, h2, hk, h4, h5]
    · have h2f : (truthyOpt cfg.schema && truthyOpt cfg.table) = false := by
        cases h : truthyOpt cfg.schema && truthyOpt cfg.table
        · rfl
        · exact absurd h h2
      simp [h1f, h2f]

theorem init_ok_elim (cfg : Config) (op : Operator) (hok : init cfg = Except.ok op) :
    op = mkOperator cfg (effectiveKey cfg) (effectiveSelect cfg) (effectiveOptions cfg)
      (cfg.redshift_data_api_kwargs.getD []) := by
  rw [init_characterization] at hok
  by_cases h1 : (truthyOpt cfg.select_query || (truthyOpt cfg.schema && truthyOpt cfg.table)) = false
  · rw [if_pos h1] at hok; exact absurd hok (by simp)
  · rw [if_neg h1] at hok
    by_cases h4 : hasKey (cfg.redshift_data_api_kwargs.getD []) (str "sql") = true
    · rw [if_pos h4] at hok; exact absurd hok (by simp)
    · rw [if_neg h4] at hok
      by_cases h5 : hasKey (cfg.redshift_data_api_kwargs.getD []) (str "parameters") = true
      · rw [if_pos h5] at hok; exact absurd hok (by simp)
      · rw [if_neg h5] at hok
        cases hok
        rfl

/-- C1, counterexample: on the spec's own scenario input the unescape
transform produces `SELECT * FROM t WHERE name = 'O''Brien'`, which is a
different string from the spec's claimed result
`SELECT * FROM t WHERE name = 'O'Brien'`, so the documented non-greedy
rule does not describe the code. -/
theorem unescape_nongreedy_example_refuted :
    unescape (str "SELECT * FROM t WHERE name = ''O''Brien''")
      = str "SELECT * FROM t WHERE name = 'O''Brien'" ∧
    (str "SELECT * FROM t WHERE name = 'O''Brien'"
      == str "SELECT * FROM t WHERE name = 'O'Brien'") = false :=
  ⟨by decide, by decide⟩

/-- C1, amended: `_build_unload_query` rewrites the select text with
`unescape`, whose `(.+)` group is greedy: each leftmost `''...''` match
takes the longest newline-free inner content followed by `''`, applied once
per match and not recursively.  On the spec's scenario input the doubled
quotes collapse to `SELECT * FROM t WHERE name = 'O''Brien'` (the inner
`''` is untouched), and on `x = ''a''b''` the greedy match yields
`x = 'a''b'` rather than the non-greedy `x = 'a'b''`. -/
theorem unescape_greedy_collapse :
    (∀ b cb sq k uo, ∃ u v, buildUnloadQuery b cb sq k uo = u ++ (unescape sq ++ v)) ∧
    unescape (str "SELECT * FROM t WHERE name = ''O''Brien''")
      = str "SELECT * FROM t WHERE name = 'O''Brien'" ∧
    unescape (str "x = ''a''b''") = str "x = 'a''b'" :=
  ⟨fun b cb sq k uo => ⟨str "\n                    UNLOAD ($$", _, rfl⟩, by decide, by decide⟩

/-- C2, counterexample: a configuration supplying both a select query and a
schema/table pair is accepted at construction (the select query takes
precedence), so the "exactly one resolvable" invariant fails. -/
theorem init_accepts_both_select_and_table :
    init cfgBothSources = Except.ok (mkOperator cfgBothSources (str "key/orders_")
      (str "SELECT col FROM other") [] []) := rfl

/-- C2, amended: construction succeeds exactly when at least one of
{selectQuery} or {schema and table} is resolvable and the Data-API kwargs
contain neither `sql` nor `parameters`; a configuration supplying both
sources is accepted, with the select query taking precedence. -/
theorem init_ok_iff_source_resolvable (cfg : Config) :
    (∃ op, init cfg = Except.ok op) ↔
      ((truthyOpt cfg.select_query || (truthyOpt cfg.schema && truthyOpt cfg.table))
        && !(hasKey (cfg.redshift_data_api_kwargs.getD []) (str "sql")
          || hasKey (cfg.redshift_data_api_kwargs.getD []) (str "parameters"))) = true := by
  cases h1 : truthyOpt cfg.select_query || (truthyOpt cfg.schema && truthyOpt cfg.table) with
  | false => simp [init_characterization, h1]
  | true =>
    cases h4 : hasKey (cfg.redshift_data_api_kwargs.getD []) (str "sql") with
    | true => simp [init_characterization, h1, h4]
    | false =>
      cases h5 : hasKey (cfg.redshift_data_api_kwargs.getD []) (str "parameters") with
      | true => simp [init_characterization, h1, h4, h5]
      | false => simp [init_characterization, h1, h4, h5]

/-- C4: a configuration lacking a truthy select query and lacking a truthy
schema or table fails construction with the `ValueError` (the spec's
ConfigurationError), so no operator exists to execute. -/
theorem init_fails_without_source (cfg : Config)
    (h1 : truthyOpt cfg.select_query = false)
    (h2 : (truthyOpt cfg.schema && truthyOpt cfg.table) = false) :
    init cfg = Except.error (ConfigError.valueError selectQueryErrMsg) := by
  rw [init_characterization]
  simp [h1, h2]

/-- C4, witness at a concrete configuration. -/
theorem init_fails_without_source_witness :
    init cfgNoSource = Except.error (ConfigError.valueError selectQueryErrMsg) :=
  init_fails_without_source cfgNoSource rfl rfl

/-- C3, counterexample: with `include_header=true` and the options already
containing `HEADER` twice, construction succeeds and keeps both copies, so
the resulting list holds a case-insensitive `HEADER` match twice, not
exactly once. -/
theorem header_flag_duplicated :
    (init cfgDupHeader).map Operator.unload_options
        = Except.ok [str "HEADER", str "HEADER"] ∧
    List.countP (fun uo => uo.map Char.toUpper == str "HEADER")
        [str "HEADER", str "HEADER"] = 2 :=
  ⟨rfl, rfl⟩

/-- C3, amended: with `include_header=true`, the stored option list is the
given one unchanged when some option upper-cases and strips to `HEADER`,
and otherwise the given list with the literal `HEADER` appended at the end;
either way at least one (not necessarily exactly one) such match is
present afterwards. -/
theorem include_header_appends_when_missing (cfg : Config) (op : Operator)
    (hok : init cfg = Except.ok op) (hih : cfg.include_header = true) :
    op.unload_options =
      (if (cfg.unload_options.getD []).any
            (fun uo => stripPy (uo.map Char.toUpper) == str "HEADER") then
        cfg.unload_options.getD []
      else cfg.unload_options.getD [] ++ [str "HEADER"]) ∧
    op.unload_options.any
      (fun uo => stripPy (uo.map Char.toUpper) == str "HEADER") = true := by
  rw [init_ok_elim cfg op hok]
  show effectiveOptions cfg = _ ∧ (effectiveOptions cfg).any _ = true
  unfold effectiveOptions
  rw [hih]
  cases hany : (cfg.unload_options.getD []).any
      (fun uo => stripPy (uo.map Char.toUpper) == str "HEADER") with
  | true => simp [hany]
  | false =>
    simp [hany, List.any_append]
    decide

/-- C3, witness: a lower-case `header` already present is recognized, so
the list stays `["header"]` and still carries a match. -/
theorem include_header_appends_when_missing_witness :
    opHeaderLower.unload_options = [str "header"] ∧
    opHeaderLower.unload_options.any
      (fun uo => stripPy (uo.map Char.toUpper) == str "HEADER") = true := by
  have h := include_header_appends_when_missing cfgHeaderLower opHeaderLower rfl rfl
  exact ⟨by rw [h.1]; rfl, h.2⟩

/-- C7: the stored destination key is `s3_key ++ "/" ++ table ++ "_"` when
`table` is truthy and `table_as_file_name` is set, and the given `s3_key`
unchanged otherwise; it is fixed at construction (the functional embedding
has no later mutation). -/
theorem effective_s3_key (cfg : Config) (op : Operator)
    (hok : init cfg = Except.ok op) :
    op.s3_key =
      if truthyOpt cfg.table && cfg.table_as_file_name then
        cfg.s3_key ++ (str "/" ++ (cfg.table.getD [] ++ str "_"))
      else cfg.s3_key := by
  rw [init_ok_elim cfg op hok]
  rfl

/-- C7, witness: `table_as_file_name=true`, `table="orders"`,
`s3_key="exports"` yields the effective key `exports/orders_`. -/
theorem effective_s3_key_witness : opOrders.s3_key = str "exports/orders_" := by
  have h := effective_s3_key cfgOrders opOrders rfl
  rw [h]; rfl

/-- C8, counterexample: a configuration whose Data-API kwargs contain `sql`
but which also lacks a resolvable source fails with the schema/table
`ValueError`, whose message does not name the offending key `sql`. -/
theorem data_api_kwarg_error_not_named_first :
    init cfgKwargsNoSource = Except.error (ConfigError.valueError selectQueryErrMsg) ∧
    strHasSub (str "sql") selectQueryErrMsg = false :=
  ⟨rfl, by decide⟩

/-- C8, amended: when the source validation passes (a truthy select query,
or truthy schema and table) and the Data-API kwargs contain `sql` or
`parameters`, construction fails with the `AirflowException` naming the
first offending key in the order `sql`, `parameters`; that key occurs
verbatim in the message. -/
theorem data_api_forbidden_kwargs_rejected (cfg : Config)
    (hsrc : (truthyOpt cfg.select_query || (truthyOpt cfg.schema && truthyOpt cfg.table)) = true)
    (hbad : (hasKey (cfg.redshift_data_api_kwargs.getD []) (str "sql")
        || hasKey (cfg.redshift_data_api_kwargs.getD []) (str "parameters")) = true) :
    init cfg = Except.error (ConfigError.airflowException (dataApiKwargErrMsg
      (if hasKey (cfg.redshift_data_api_kwargs.getD []) (str "sql") then str "sql"
       else str "parameters"))) ∧
    (∃ u v, dataApiKwargErrMsg
      (if hasKey (cfg.redshift_data_api_kwargs.getD []) (str "sql") then str "sql"
       else str "parameters") =
      u ++ ((if hasKey (cfg.redshift_data_api_kwargs.getD []) (str "sql") then str "sql"
            else str "parameters") ++ v)) := by
  refine ⟨?_, str "Cannot include param '", str "' in Redshift Data API kwargs", rfl⟩
  rw [init_characterization]
  cases h4 : hasKey (cfg.redshift_data_api_kwargs.getD []) (str "sql") with
  | true => simp [hsrc, h4]
  | false =>
    rw [h4] at hbad
    simp only [Bool.false_or] at hbad
    simp [hsrc, h4, hbad]

/-- C8, witness: a valid source plus a `sql` kwarg fails with the
`AirflowException` naming `sql`. -/
theorem data_api_forbidden_kwargs_rejected_witness :
    init cfgKwargsSql
      = Except.error (ConfigError.airflowException (dataApiKwargErrMsg (str "sql"))) := by
  have h := data_api_forbidden_kwargs_rejected cfgKwargsSql rfl rfl
  rw [h.1]; rfl

/-- C5: execution submits the built statement to exactly one backend chosen
by whether the Data-API kwargs are non-empty: `execute_query` with the bind
parameters and the kwargs when non-empty, `run` with the autocommit flag
and the bind parameters when empty. -/
theorem execute_dispatch_backend (op : Operator) (env : ExecEnv) :
    (execute op env).submission =
      if op.redshift_data_api_kwargs.isEmpty then
        Submission.sqlRun
          (buildUnloadQuery op.s3_bucket (execute op env).credentials_block
            op.select_query op.s3_key (List.intercalate (str "\n\t\t\t") op.unload_options))
          op.autocommit op.parameters
      else
        Submission.dataApi
          (buildUnloadQuery op.s3_bucket (execute op env).credentials_block
            op.select_query op.s3_key (List.intercalate (str "\n\t\t\t") op.unload_options))
          op.parameters op.redshift_data_api_kwargs := by
  cases h : op.redshift_data_api_kwargs.isEmpty <;> simp [execute, h]

/-- C6: when the destination connection is resolved and its extra
configuration carries a truthy `role_arn`, the credentials clause is
exactly `aws_iam_role=` followed by that ARN, and `get_credentials` is
never invoked. -/
theorem role_arn_credentials_block (op : Operator) (env : ExecEnv) (arn : Str)
    (hconn : truthyOpt op.aws_conn_id = true)
    (harn : lookupMap env.conn.extra (str "role_arn") = some arn)
    (hne : arn.isEmpty = false) :
    (execute op env).credentials_block = str "aws_iam_role=" ++ arn ∧
    (execute op env).getCredentialsInvoked = false := by
  constructor <;> simp [execute, hconn, harn, hne]

/-- C6, witness: `role_arn="arn:aws:iam::123:role/x"` yields the clause
`aws_iam_role=arn:aws:iam::123:role/x` without touching the key-fetch
path. -/
theorem role_arn_credentials_block_witness :
    (execute opRole envRole).credentials_block = str "aws_iam_role=arn:aws:iam::123:role/x" ∧
    (execute opRole envRole).getCredentialsInvoked = false := by
  have h := role_arn_credentials_block opRole envRole (str "arn:aws:iam::123:role/x") rfl rfl rfl
  exact ⟨by rw [h.1]; rfl, h.2⟩

/-- C10: an empty-string select query is falsy, hence treated as absent:
schema and table are then required (failing with the same `ValueError`
otherwise), and whenever the select query is absent or empty and schema
and table are supplied, the stored select text is
`SELECT * FROM <schema>.<table>`. -/
theorem empty_select_query_treated_absent :
    (∀ cfg : Config, cfg.select_query = some [] →
      (truthyOpt cfg.schema && truthyOpt cfg.table) = false →
      init cfg = Except.error (ConfigError.valueError selectQueryErrMsg)) ∧
    (∀ (cfg : Config) (op : Operator) (s t : Str),
      truthyOpt cfg.select_query = false →
      cfg.schema = some s → cfg.table = some t →
      init cfg = Except.ok op →
      op.select_query = str "SELECT * FROM " ++ (s ++ (str "." ++ t))) := by
  constructor
  · intro cfg hsel h2
    have h1 : truthyOpt cfg.select_query = false := by rw [hsel]; rfl
    rw [init_characterization]
    simp [h1, h2]
  · intro cfg op s t hsel hs ht hok
    rw [init_ok_elim cfg op hok]
    show effectiveSelect cfg = _
    simp [effectiveSelect, hsel, hs, ht]

/-- C10, witness: an empty select query with no table fails, and with
`schema="sch"`, `table="tbl"` the stored select text is
`SELECT * FROM sch.tbl`. -/
theorem empty_select_query_treated_absent_witness :
    init cfgEmptySelectNoTable = Except.error (ConfigError.valueError selectQueryErrMsg) ∧
    opEmptySelect.select_query = str "SELECT * FROM sch.tbl" := by
  refine ⟨empty_select_query_treated_absent.1 cfgEmptySelectNoTable rfl rfl, ?_⟩
  have h := empty_select_query_treated_absent.2 cfgEmptySelectWithTable opEmptySelect
    (str "sch") (str "tbl") rfl rfl rfl rfl
  rw [h]; rfl

theorem str_unload_split (X : Str) :
    str "UNLOAD ($$" ++ X = 'U' :: (str "NLOAD ($$" ++ X) := rfl

theorem str_semicolon_eq : str ";" = [';'] := rfl

theorem str_to_s3_split (X : Str) :
    str "$$)\n                    TO 's3://" ++ X
      = str "$$)\n                    TO '" ++ (str "s3://" ++ X) := rfl

theorem str_unload_open_split (X : Str) :
    str "\n                    UNLOAD ($$" ++ X
      = str "\n                    UNLOAD " ++ (str "($$" ++ X) := rfl

theorem str_dollars_close_split (X : Str) :
    str "$$)\n                    TO 's3://" ++ X
      = str "$$)" ++ (str "\n                    TO 's3://" ++ X) := rfl

theorem unload_statement_strip (b cb sq k uo : Str) :
    stripPy (buildUnloadQuery b cb sq k uo) =
      'U' :: ((str "NLOAD ($$" ++ (unescape sq ++ (str "$$)\n                    TO 's3://" ++
        (b ++ (str "/" ++ (k ++ (str "'\n                    credentials\n                    '" ++
          (cb ++ (str "'\n                    " ++ uo))))))))) ++ [';']) := by
  have hre : buildUnloadQuery b cb sq k uo =
      str "\n                    " ++ ('U' :: ((str "NLOAD ($$" ++ (unescape sq ++
        (str "$$)\n                    TO 's3://" ++ (b ++ (str "/" ++ (k ++
          (str "'\n                    credentials\n                    '" ++ (cb ++
            (str "'\n                    " ++ uo))))))))) ++ (';' :: str "\n        "))) := by
    rw [buildUnloadQuery_decomp]
    simp [List.append_assoc]
  rw [hre]
  exact stripBy_sandwich isPyWs _ _ _ 'U' ';' (by decide) (by decide) (by decide) (by decide)

theorem buildUnloadQuery_s3_decomp (b cb sq k uo : Str) :
    buildUnloadQuery b cb sq k uo =
      (str "\n                    UNLOAD ($$" ++ (unescape sq ++ str "$$)\n                    TO '")) ++
        (str "s3://" ++ (b ++ (str "/" ++ (k ++
          (str "'\n                    credentials\n                    '" ++ (cb ++
            (str "'\n                    " ++ (uo ++ str ";\n        ")))))))) := by
  simp only [buildUnloadQuery]
  rw [str_to_s3_split]
  simp [List.append_assoc]

theorem buildUnloadQuery_dollars_decomp (b cb sq k uo : Str) :
    buildUnloadQuery b cb sq k uo =
      str "\n                    UNLOAD " ++
        (str "($$" ++ (unescape sq ++ (str "$$)" ++
          (str "\n                    TO 's3://" ++ (b ++ (str "/" ++ (k ++
            (str "'\n                    credentials\n                    '" ++ (cb ++
              (str "'\n                    " ++ (uo ++ str ";\n        "))))))))))) := by
  simp only [buildUnloadQuery]
  rw [str_unload_open_split, str_dollars_close_split]

theorem buildUnloadQuery_options_decomp (b cb sq k uo : Str) :
    buildUnloadQuery b cb sq k uo =
      (str "\n                    UNLOAD ($$" ++ (unescape sq ++ (str "$$)\n                    TO 's3://" ++
        (b ++ (str "/" ++ (k ++ (str "'\n                    credentials\n                    '" ++ (cb ++
          str "'\n                    ")))))))) ++ (uo ++ str ";\n        ") := by
  simp [buildUnloadQuery, List.append_assoc]

/-- C9: for every operator and environment, the submitted statement text
starts with `UNLOAD ($$` and ends with `;` once surrounding whitespace is
stripped; it embeds the destination as `s3://<bucket>/<key>`; the
(unescaped) select text sits inside `($$...$$)` dollar-quoting; and the
unload options appear joined by newline plus three tabs, in order, just
before the closing `;`. -/
theorem unload_statement_shape (op : Operator) (env : ExecEnv) :
    (∃ t, stripPy (submittedSql (execute op env).submission) = str "UNLOAD ($$" ++ t) ∧
    (∃ t, stripPy (submittedSql (execute op env).submission) = t ++ str ";") ∧
    (∃ u v, submittedSql (execute op env).submission =
      u ++ (str "s3://" ++ (op.s3_bucket ++ (str "/" ++ (op.s3_key ++ v))))) ∧
    (∃ u v, submittedSql (execute op env).submission =
      u ++ (str "($$" ++ (unescape op.select_query ++ (str "$$)" ++ v)))) ∧
    (∃ u, submittedSql (execute op env).submission =
      u ++ (List.intercalate (str "\n\t\t\t") op.unload_options ++ str ";\n        ")) := by
  rw [submittedSql_execute]
  refine ⟨?_, ?_, ?_, ?_, ?_⟩
  · refine ⟨(unescape op.select_query ++ (str "$$)\n                    TO 's3://" ++
      (op.s3_bucket ++ (str "/" ++ (op.s3_key ++
        (str "'\n                    credentials\n                    '" ++
          ((execute op env).credentials_block ++ (str "'\n                    " ++
            List.intercalate (str "\n\t\t\t") op.unload_options)))))))) ++ [';'], ?_⟩
    rw [unload_statement_strip, str_unload_split]
    simp [List.append_assoc]
  · refine ⟨'U' :: (str "NLOAD ($$" ++ (unescape op.select_query ++
      (str "$$)\n                    TO 's3://" ++ (op.s3_bucket ++ (str "/" ++ (op.s3_key ++
        (str "'\n                    credentials\n                    '" ++
          ((execute op env).credentials_block ++ (str "'\n                    " ++
            List.intercalate (str "\n\t\t\t") op.unload_options))))))))), ?_⟩
    rw [unload_statement_strip, str_semicolon_eq]
    simp [List.append_assoc]
  · exact ⟨_, _, buildUnloadQuery_s3_decomp op.s3_bucket (execute op env).credentials_block
      op.select_query op.s3_key (List.intercalate (str "\n\t\t\t") op.unload_options)⟩
  · exact ⟨_, _, buildUnloadQuery_dollars_decomp op.s3_bucket (execute op env).credentials_block
      op.select_query op.s3_key (List.intercalate (str "\n\t\t\t") op.unload_options)⟩
  · exact ⟨_, buildUnloadQuery_options_decomp op.s3_bucket (execute op env).credentials_block
      op.select_query op.s3_key (List.intercalate (str "\n\t\t\t") op.unload_options)⟩
